/-
Verification of the Flight-Management API core against its specification.

This file gives a shallow embedding of the repository's data model
(app/models.py), validation helpers (app/utils.py) and request handlers
(app/routes.py), and proves the specified properties about them.

Modelling conventions:
* Timestamps (`datetime` values) are rational numbers of seconds on a
  single linear timeline; comparisons and subtraction mirror `datetime`
  comparisons and `timedelta.total_seconds()`.
* A datetime string offered to `datetime.fromisoformat` is modelled by
  `DtStr`: either a string the parser accepts (carrying the parsed
  instant) or one it rejects.  `parse_datetime` maps the former to
  `some t` and the latter (as well as a non-string, which raises
  `TypeError` in the source) to `none`.
* A JSON body is modelled by a structure with one `Option` field per
  key the handler looks at (`none` = key absent).
* The database session / unit of work: handlers stage changes on a local
  copy of the record and the resulting store is produced only by the
  final `db.session.commit()`; an early error return leaves the store as
  it was (the storage layer's transaction rollback, §5/§7 of the spec).
  Each handler therefore returns the response (`Except` of an error kind
  and message) together with the store after the request.
* Python dictionaries (`stats`, `aircraft_flight_times`) are modelled as
  insertion-ordered association lists: updating an existing key keeps
  its position, a new key is appended at the end.
* Python truthiness of an optional integer field (`if flight.aircraft_id:`)
  is `intTruthy`: `None` and `0` are falsy.
-/
import Mathlib

abbrev Time := ℚ

structure Aircraft where
  id : Nat
  serial_number : String
  manufacturer : String
deriving DecidableEq

structure Flight where
  id : Nat
  departure_airport : String
  arrival_airport : String
  departure_time : Time
  arrival_time : Time
  aircraft_id : Option Nat
deriving DecidableEq

/-- The persistent store: the `aircraft` and `flight` tables. -/
structure DB where
  aircraft : List Aircraft
  flights : List Flight
deriving DecidableEq

/-- Python truthiness of an optional integer (`None` and `0` are falsy). -/
def intTruthy : Option Nat → Bool
  | none => false
  | some n => n != 0

/-- A datetime string as seen by `datetime.fromisoformat`: either parseable,
carrying the instant it denotes, or malformed. -/
inductive DtStr where
  | valid (t : Time)
  | invalid
deriving DecidableEq

/-- Embedding of `parse_datetime` (app/utils.py): returns the parsed instant, or `None`
on a malformed string or a non-string (`ValueError` / `TypeError`). -/
def parse_datetime : Option DtStr → Option Time
  | some (DtStr.valid t) => some t
  | _ => none

/-- Embedding of `validate_icao_code` (app/utils.py): `None`/non-string and the empty
string are rejected, then the code must be 4 alphabetic characters. -/
def validate_icao_code : Option String → Bool
  | none => false
  | some s =>
    if s.isEmpty then false
    else if s.length != 4 || !(s.toList.all Char.isAlpha) then false
    else true

/-- Embedding of `calculate_inflight_time` (app/utils.py): clip the flight interval to
the window and convert the remaining seconds to (fractional) minutes. -/
def calculate_inflight_time (flight : Flight) (start_time end_time : Time) : ℚ :=
  let flight_start := max flight.departure_time start_time
  let flight_end := min flight.arrival_time end_time
  if flight_start < flight_end then (flight_end - flight_start) / 60
  else 0

/-- Error classification carried by the HTTP status code of an error
response (400 / 404 / 409). -/
inductive ErrKind where
  | validation
  | notFound
  | conflict
deriving DecidableEq

/-- The distinct error messages produced by the embedded handlers. -/
inductive Msg where
  | entityMissing
  | missingAircraftFields
  | serialExists (s : String)
  | cannotDeleteAssigned
  | missingRequired (fs : List String)
  | invalidDepIcao (s : String)
  | invalidArrIcao (s : String)
  | invalidDepTimeFormat
  | invalidArrTimeFormat
  | depNotFuture
  | arrNotAfterDep
  | aircraftNotFound (i : Nat)
  | missingWindowBounds
  | invalidWindowFormat
  | endNotAfterStart
deriving DecidableEq

abbrev Err := ErrKind × Msg

/-- Lookup by primary key, `Aircraft.query.get(i)` / `Flight.query.get(i)`. -/
def findAircraft (db : DB) (i : Nat) : Option Aircraft :=
  db.aircraft.find? (fun a => a.id == i)

def findFlight (db : DB) (i : Nat) : Option Flight :=
  db.flights.find? (fun f => f.id == i)

/-- First row with the given serial, `Aircraft.query.filter_by(serial_number=s).first()`. -/
def firstAircraftBySerial (db : DB) (s : String) : Option Aircraft :=
  db.aircraft.find? (fun a => a.serial_number == s)

/-- Committing a staged aircraft record: the row with its id is replaced. -/
def commitAircraft (db : DB) (a : Aircraft) : DB :=
  { db with aircraft := db.aircraft.map (fun x => if x.id == a.id then a else x) }

/-- Committing a staged flight record: the row with its id is replaced. -/
def commitFlight (db : DB) (f : Flight) : DB :=
  { db with flights := db.flights.map (fun x => if x.id == f.id then f else x) }


/-! ### Aircraft endpoints -/

structure AircraftCreate where
  serial_number : Option String
  manufacturer : Option String
deriving DecidableEq

/-- Handler `create_aircraft` (app/routes.py): POST /aircraft.  `newId` is the
primary key assigned by the storage layer. -/
def create_aircraft (db : DB) (data : AircraftCreate) (newId : Nat) :
    Except Err Aircraft × DB :=
  match data.serial_number, data.manufacturer with
  | some s, some m =>
    match firstAircraftBySerial db s with
    | some _ => (.error (.conflict, .serialExists s), db)
    | none =>
      let aircraft : Aircraft := { id := newId, serial_number := s, manufacturer := m }
      (.ok aircraft, { db with aircraft := db.aircraft ++ [aircraft] })
  | _, _ => (.error (.validation, .missingAircraftFields), db)

structure AircraftUpdate where
  serial_number : Option String
  manufacturer : Option String
deriving DecidableEq

/-- The staging part of `update_aircraft`: validate and build the updated
record from the stored one, without touching the store.  The serial-number
block runs first (its conflict check may abort the request), then the
manufacturer assignment. -/
def update_aircraft_stage (db : DB) (aircraft_id : Nat) (a0 : Aircraft)
    (data : AircraftUpdate) : Except Err Aircraft :=
  let step1 : Except Err Aircraft :=
    match data.serial_number with
    | some s =>
      match firstAircraftBySerial db s with
      | some existing =>
        if existing.id != aircraft_id then .error (.conflict, .serialExists s)
        else .ok { a0 with serial_number := s }
      | none => .ok { a0 with serial_number := s }
    | none => .ok a0
  match step1 with
  | .error e => .error e
  | .ok a1 =>
    match data.manufacturer with
    | some m => .ok { a1 with manufacturer := m }
    | none => .ok a1

/-- Handler `update_aircraft` (app/routes.py): PUT /aircraft/id.  An error return
happens before `db.session.commit()`, so the store is unchanged. -/
def update_aircraft (db : DB) (aircraft_id : Nat) (data : AircraftUpdate) :
    Except Err Aircraft × DB :=
  match findAircraft db aircraft_id with
  | none => (.error (.notFound, .entityMissing), db)
  | some a0 =>
    match update_aircraft_stage db aircraft_id a0 data with
    | .error e => (.error e, db)
    | .ok a => (.ok a, commitAircraft db a)


/-! ### Flight endpoints -/

structure FlightCreate where
  departure_airport : Option String
  arrival_airport : Option String
  departure_time : Option DtStr
  arrival_time : Option DtStr
  aircraft_id : Option Nat
deriving DecidableEq

/-- The `missing_fields` list computed by `create_flight`, in the order of
`required_fields`. -/
def missing_fields (data : FlightCreate) : List String :=
  (if data.departure_airport.isNone then ["departure_airport"] else []) ++
  (if data.arrival_airport.isNone then ["arrival_airport"] else []) ++
  (if data.departure_time.isNone then ["departure_time"] else []) ++
  (if data.arrival_time.isNone then ["arrival_time"] else [])

/-- Handler `create_flight` (app/routes.py): POST /flights.  `now` is
`datetime.utcnow()` at the evaluation point, `newId` the assigned key. -/
def create_flight (db : DB) (data : FlightCreate) (now : Time) (newId : Nat) :
    Except Err Flight × DB :=
  match data.departure_airport, data.arrival_airport,
        data.departure_time, data.arrival_time with
  | some depA, some arrA, some depS, some arrS =>
    if !validate_icao_code (some depA) then
      (.error (.validation, .invalidDepIcao depA), db)
    else if !validate_icao_code (some arrA) then
      (.error (.validation, .invalidArrIcao arrA), db)
    else
      match parse_datetime (some depS) with
      | none => (.error (.validation, .invalidDepTimeFormat), db)
      | some departure_time =>
        match parse_datetime (some arrS) with
        | none => (.error (.validation, .invalidArrTimeFormat), db)
        | some arrival_time =>
          if departure_time ≤ now then
            (.error (.validation, .depNotFuture), db)
          else if arrival_time ≤ departure_time then
            (.error (.validation, .arrNotAfterDep), db)
          else
            let aircraftCheck : Except Err Unit :=
              if intTruthy data.aircraft_id then
                match findAircraft db (data.aircraft_id.getD 0) with
                | none => .error (.notFound, .aircraftNotFound (data.aircraft_id.getD 0))
                | some _ => .ok ()
              else .ok ()
            match aircraftCheck with
            | .error e => (.error e, db)
            | .ok _ =>
              let flight : Flight :=
                { id := newId,
                  departure_airport := depA.toUpper,
                  arrival_airport := arrA.toUpper,
                  departure_time := departure_time,
                  arrival_time := arrival_time,
                  aircraft_id := data.aircraft_id }
              (.ok flight, { db with flights := db.flights ++ [flight] })
  | _, _, _, _ => (.error (.validation, .missingRequired (missing_fields data)), db)

structure FlightUpdate where
  departure_time : Option DtStr
  arrival_time : Option DtStr
  departure_airport : Option String
  arrival_airport : Option String
  aircraft_id : Option (Option Nat)
deriving DecidableEq

/-- The staging part of `update_flight`: the handler body between the
lookup and `db.session.commit()`, acting on a local copy of the row. -/
def update_flight_stage (db : DB) (f0 : Flight) (data : FlightUpdate)
    (now : Time) : Except Err Flight := do
  let mut flight := f0
  -- If updating departure time, check that it is in the future
  match data.departure_time with
  | some s =>
    match parse_datetime (some s) with
    | none => throw (.validation, .invalidDepTimeFormat)
    | some departure_time =>
      if departure_time ≤ now then
        throw (.validation, .depNotFuture)
      flight := { flight with departure_time := departure_time }
  | none => pure ()
  -- If updating arrival time, check that it is after the departure time
  match data.arrival_time with
  | some s =>
    match parse_datetime (some s) with
    | none => throw (.validation, .invalidArrTimeFormat)
    | some arrival_time =>
      let departure :=
        match data.departure_time with
        | some ds =>
          -- this parse already succeeded in the block above
          (parse_datetime (some ds)).getD flight.departure_time
        | none => flight.departure_time
      if arrival_time ≤ departure then
        throw (.validation, .arrNotAfterDep)
      flight := { flight with arrival_time := arrival_time }
  | none => pure ()
  -- Update ICAO codes if provided
  match data.departure_airport with
  | some a =>
    if !validate_icao_code (some a) then
      throw (.validation, .invalidDepIcao a)
    flight := { flight with departure_airport := a.toUpper }
  | none => pure ()
  match data.arrival_airport with
  | some a =>
    if !validate_icao_code (some a) then
      throw (.validation, .invalidArrIcao a)
    flight := { flight with arrival_airport := a.toUpper }
  | none => pure ()
  -- Update aircraft assignment if provided
  match data.aircraft_id with
  | some v =>
    match v with
    | some k =>
      match findAircraft db k with
      | none => throw (.notFound, .aircraftNotFound k)
      | some _ => pure ()
    | none => pure ()
    flight := { flight with aircraft_id := v }
  | none => pure ()
  return flight

/-- Handler `update_flight` (app/routes.py): PUT /flights/id.  An error return
happens before `db.session.commit()`, so the store is unchanged. -/
def update_flight (db : DB) (flight_id : Nat) (data : FlightUpdate)
    (now : Time) : Except Err Flight × DB :=
  match findFlight db flight_id with
  | none => (.error (.notFound, .entityMissing), db)
  | some f0 =>
    match update_flight_stage db f0 data now with
    | .error e => (.error e, db)
    | .ok f => (.ok f, commitFlight db f)


/-! ### Flight statistics report -/

/-- The three-clause overlap filter of `flight_statistics`
(app/routes.py, the `or_` of three `and_` clauses). -/
def overlapsWindow (start_time end_time : Time) (f : Flight) : Bool :=
  (decide (f.departure_time ≥ start_time) && decide (f.departure_time ≤ end_time)) ||
  (decide (f.arrival_time ≥ start_time) && decide (f.arrival_time ≤ end_time)) ||
  (decide (f.departure_time ≤ start_time) && decide (f.arrival_time ≥ end_time))

/-- Per-airport accumulator, one entry of the `stats` dictionary. -/
structure GroupAcc where
  flight_count : Nat
  aircraft_flight_times : List (Nat × ℚ)
  total_flight_time : ℚ
deriving DecidableEq

def emptyGroup : GroupAcc :=
  { flight_count := 0, aircraft_flight_times := [], total_flight_time := 0 }

/-- Python dictionary read, on an insertion-ordered association list. -/
def dget {κ ν : Type} [BEq κ] (l : List (κ × ν)) (k : κ) : Option ν :=
  (l.find? (fun p => p.1 == k)).map (fun p => p.2)

/-- Python dictionary write: update in place if the key exists (keeping
its position), else append at the end. -/
def dset {κ ν : Type} [BEq κ] (l : List (κ × ν)) (k : κ) (v : ν) :
    List (κ × ν) :=
  if (l.find? (fun p => p.1 == k)).isSome
  then l.map (fun p => if p.1 == k then (k, v) else p)
  else l ++ [(k, v)]

/-- Read on an `aircraft_flight_times` dictionary. -/
def qget (l : List (Nat × ℚ)) (k : Nat) : Option ℚ := dget l k

/-- Write on an `aircraft_flight_times` dictionary. -/
def qset (l : List (Nat × ℚ)) (k : Nat) (v : ℚ) : List (Nat × ℚ) := dset l k v

/-- Read on the `stats` dictionary. -/
def sget (stats : List (String × GroupAcc)) (a : String) : Option GroupAcc :=
  dget stats a

/-- Write on the `stats` dictionary. -/
def sset (stats : List (String × GroupAcc)) (a : String) (g : GroupAcc) :
    List (String × GroupAcc) :=
  dset stats a g

/-- The body of the grouping loop of `flight_statistics` for one flight:
create the airport's entry if missing, bump `flight_count`, and for an
assigned aircraft accumulate the clipped in-flight minutes. -/
def statsStep (start_time end_time : Time)
    (stats : List (String × GroupAcc)) (flight : Flight) :
    List (String × GroupAcc) :=
  let a := flight.departure_airport
  let g0 := (sget stats a).getD emptyGroup
  let g1 := { g0 with flight_count := g0.flight_count + 1 }
  let g2 :=
    if intTruthy flight.aircraft_id then
      let in_flight_minutes := calculate_inflight_time flight start_time end_time
      let k := flight.aircraft_id.getD 0
      let prev := (qget g1.aircraft_flight_times k).getD 0
      { g1 with
        aircraft_flight_times := qset g1.aircraft_flight_times k (prev + in_flight_minutes),
        total_flight_time := g1.total_flight_time + in_flight_minutes }
    else g1
  sset stats a g2

/-- Round half to even at integer precision (the rounding used by Python's
built-in `round`). -/
def rhe (q : ℚ) : ℤ :=
  if q - ⌊q⌋ < 1/2 then ⌊q⌋
  else if 1/2 < q - ⌊q⌋ then ⌊q⌋ + 1
  else if ⌊q⌋ % 2 = 0 then ⌊q⌋ else ⌊q⌋ + 1

/-- Python's `round(x, 2)`. -/
def round2 (q : ℚ) : ℚ := (rhe (100 * q) : ℚ) / 100

structure AircraftTimeEntry where
  aircraft_id : Nat
  serial_number : String
  in_flight_minutes : ℚ
deriving DecidableEq

structure AirportStats where
  departure_airport : String
  flight_count : Nat
  aircraft_flight_times : List AircraftTimeEntry
  average_flight_time : ℚ
deriving DecidableEq

structure StatsMeta where
  start_time : Time
  end_time : Time
  total_airports : Nat
  total_flights : Nat
deriving DecidableEq

structure StatsReport where
  data : List AirportStats
  meta : StatsMeta
deriving DecidableEq

/-- Shaping of one `aircraft_flight_times` entry: resolve the serial
number (label "Unknown" if the aircraft does not resolve) and round the
accumulated minutes to 2 decimals. -/
def shapeEntry (db : DB) (p : Nat × ℚ) : AircraftTimeEntry :=
  { aircraft_id := p.1,
    serial_number :=
      match findAircraft db p.1 with
      | some aircraft => aircraft.serial_number
      | none => "Unknown",
    in_flight_minutes := round2 p.2 }

/-- The response-shaping loop of `flight_statistics` for one group. -/
def shapeGroup (db : DB) (airport : String) (g : GroupAcc) : AirportStats :=
  { departure_airport := airport,
    flight_count := g.flight_count,
    aircraft_flight_times := g.aircraft_flight_times.map (shapeEntry db),
    average_flight_time :=
      if g.flight_count > 0 then round2 (g.total_flight_time / g.flight_count) else 0 }

/-- Handler `flight_statistics` (app/routes.py): GET /reports/flight-stats.
`none` for a bound models an absent (or empty, hence falsy) query
parameter.  The handler performs no writes, so no store is returned. -/
def flight_statistics (db : DB) (start_time_str end_time_str : Option DtStr) :
    Except Err StatsReport :=
  match start_time_str, end_time_str with
  | none, _ => .error (.validation, .missingWindowBounds)
  | _, none => .error (.validation, .missingWindowBounds)
  | some ss, some es =>
    match parse_datetime (some ss), parse_datetime (some es) with
    | none, _ => .error (.validation, .invalidWindowFormat)
    | _, none => .error (.validation, .invalidWindowFormat)
    | some start_time, some end_time =>
      if end_time ≤ start_time then
        .error (.validation, .endNotAfterStart)
      else
        let flights := db.flights.filter (overlapsWindow start_time end_time)
        let stats := flights.foldl (statsStep start_time end_time) []
        let result := stats.map (fun p => shapeGroup db p.1 p.2)
        .ok
          { data := result,
            meta :=
              { start_time := start_time,
                end_time := end_time,
                total_airports := result.length,
                total_flights := (result.map (fun d => d.flight_count)).sum } }


/-! ### Specification-level quantities

These restate, directly from the specification's words, the quantities the
aggregated report is claimed to contain; the theorems below relate the
embedded handler to them. -/

/-- The flights selected for the window (the filtered query). -/
def selectedFlights (db : DB) (s e : Time) : List Flight :=
  db.flights.filter (overlapsWindow s e)

/-- The spec-level two-clause interval-intersection test of §4.4. -/
def intervalIntersects (f : Flight) (s e : Time) : Prop :=
  f.departure_time ≤ e ∧ s ≤ f.arrival_time

/-- Contribution of one flight to its group's total: its clipped minutes
if it belongs to the group and has an assigned aircraft, else 0. -/
def contribOf (s e : Time) (a : String) (f : Flight) : ℚ :=
  if f.departure_airport == a && intTruthy f.aircraft_id
  then calculate_inflight_time f s e else 0

/-- Contribution of one flight to one aircraft's accumulated minutes. -/
def contribOfK (s e : Time) (a : String) (k : Nat) (f : Flight) : ℚ :=
  if f.departure_airport == a && intTruthy f.aircraft_id
      && (f.aircraft_id.getD 0 == k)
  then calculate_inflight_time f s e else 0

/-- Number of selected flights departing from airport `a`. -/
def groupCount (db : DB) (s e : Time) (a : String) : Nat :=
  (selectedFlights db s e).countP (fun f => f.departure_airport == a)

/-- Total in-flight minutes of airport `a`'s group. -/
def groupTotal (db : DB) (s e : Time) (a : String) : ℚ :=
  ((selectedFlights db s e).map (contribOf s e a)).sum

/-- Accumulated in-flight minutes of aircraft `k` within airport `a`'s
group. -/
def aircraftTotal (db : DB) (s e : Time) (a : String) (k : Nat) : ℚ :=
  ((selectedFlights db s e).map (contribOfK s e a k)).sum


/-! ### Association-list (Python dictionary) lemmas -/

/-- Composing the key predicate with the in-place replacement of key `k`
changes nothing: the replacement preserves every pair's key. -/
theorem key_pred_comp {κ ν : Type} [BEq κ] [LawfulBEq κ] (k k' : κ) (v : ν) :
    ((fun (p : κ × ν) => p.1 == k') ∘ (fun p => if p.1 == k then (k, v) else p))
      = fun (p : κ × ν) => p.1 == k' := by
  funext p
  by_cases hp : (p.1 == k) = true
  · have hp1 : p.1 = k := beq_iff_eq.mp hp
    simp [Function.comp, hp, hp1]
  · simp [Function.comp, hp]

theorem dget_dset_self {κ ν : Type} [BEq κ] [LawfulBEq κ]
    (l : List (κ × ν)) (k : κ) (v : ν) : dget (dset l k v) k = some v := by
  simp only [dget, dset]
  split
  case isTrue h =>
    rw [List.find?_map, key_pred_comp]
    obtain ⟨q, hq⟩ := Option.isSome_iff_exists.mp h
    have hqk := List.find?_some hq
    rw [hq]
    simp [Option.map_map, Function.comp, hqk]
  case isFalse h =>
    have hnone : l.find? (fun p => p.1 == k) = none :=
      Option.not_isSome_iff_eq_none.mp h
    rw [List.find?_append, hnone]
    simp [List.find?_cons]

theorem dget_dset_ne {κ ν : Type} [BEq κ] [LawfulBEq κ]
    (l : List (κ × ν)) (k k' : κ) (v : ν) (hne : k' ≠ k) :
    dget (dset l k v) k' = dget l k' := by
  simp only [dget, dset]
  split
  case isTrue h =>
    rw [List.find?_map, key_pred_comp]
    cases hf : l.find? (fun p => p.1 == k') with
    | none => simp [hf]
    | some q =>
      have hq0 := List.find?_some hf
      have hq1 : q.1 = k' := beq_iff_eq.mp hq0
      have hqk : (q.1 == k) = false := by simp [hq1, hne]
      simp [hf, Option.map_map, Function.comp, hqk]
  case isFalse h =>
    rw [List.find?_append]
    have hkv : (((k, v) : κ × ν).1 == k') = false := by simp [Ne.symm hne]
    simp [List.find?_cons, hkv]

theorem dget_eq_some_mem {κ ν : Type} [BEq κ] [LawfulBEq κ]
    {l : List (κ × ν)} {k : κ} {v : ν} (h : dget l k = some v) : (k, v) ∈ l := by
  simp only [dget] at h
  cases hf : l.find? (fun p => p.1 == k) with
  | none => rw [hf] at h; simp at h
  | some p =>
    rw [hf] at h
    have hk : p.1 = k := by simpa using List.find?_some hf
    have hv : p.2 = v := by simpa using h
    have hmem := List.mem_of_find?_eq_some hf
    have hpe : p = (k, v) := Prod.ext hk hv
    rwa [hpe] at hmem

theorem mem_dget {κ ν : Type} [BEq κ] [LawfulBEq κ]
    {l : List (κ × ν)} {k : κ} {v : ν}
    (hnd : (l.map Prod.fst).Nodup) (h : (k, v) ∈ l) : dget l k = some v := by
  induction l with
  | nil => simp at h
  | cons p l ih =>
    simp only [List.map_cons, List.nodup_cons] at hnd
    rcases List.mem_cons.mp h with heq | hmem
    · subst heq
      simp [dget, List.find?_cons]
    · have hp : (p.1 == k) = false := by
        have hk : k ∈ l.map Prod.fst := List.mem_map.mpr ⟨(k, v), hmem, rfl⟩
        by_cases hc : p.1 = k
        · exact absurd (hc ▸ hk) hnd.1
        · simp [hc]
      have hrec := ih hnd.2 hmem
      simpa [dget, List.find?_cons, hp] using hrec

theorem keys_nodup_dset {κ ν : Type} [BEq κ] [LawfulBEq κ]
    (l : List (κ × ν)) (k : κ) (v : ν)
    (hnd : (l.map Prod.fst).Nodup) : ((dset l k v).map Prod.fst).Nodup := by
  simp only [dset]
  split
  case isTrue h =>
    have hmaps : (l.map (fun p => if p.1 == k then (k, v) else p)).map Prod.fst
        = l.map Prod.fst := by
      rw [List.map_map]
      apply List.map_congr_left
      intro p _
      by_cases hp : (p.1 == k) = true
      · have hp1 : p.1 = k := beq_iff_eq.mp hp
        simp [Function.comp, hp, hp1]
      · simp [Function.comp, hp]
    rw [hmaps]
    exact hnd
  case isFalse h =>
    have hnone : l.find? (fun p => p.1 == k) = none :=
      Option.not_isSome_iff_eq_none.mp h
    have hnotin : k ∉ l.map Prod.fst := by
      intro hmem
      rcases List.mem_map.mp hmem with ⟨p, hp, hpk⟩
      have hfalse := List.find?_eq_none.mp hnone p hp
      simp [hpk] at hfalse
    rw [List.map_append, List.nodup_append]
    refine ⟨hnd, by simp, ?_⟩
    intro x hx hx2
    simp only [List.map_cons, List.map_nil, List.mem_singleton] at hx2
    subst hx2
    exact hnotin hx

theorem mem_dset {κ ν : Type} [BEq κ] [LawfulBEq κ]
    {l : List (κ × ν)} {k : κ} {v : ν} {p : κ × ν}
    (h : p ∈ dset l k v) : p = (k, v) ∨ (p ∈ l ∧ p.1 ≠ k) := by
  simp only [dset] at h
  split at h
  case isTrue hf =>
    rcases List.mem_map.mp h with ⟨q, hq, hqe⟩
    by_cases hqk : (q.1 == k) = true
    · rw [if_pos hqk] at hqe
      exact Or.inl hqe.symm
    · rw [if_neg hqk] at hqe
      subst hqe
      exact Or.inr ⟨hq, by simpa using hqk⟩
  case isFalse hf =>
    have hnone : l.find? (fun p => p.1 == k) = none :=
      Option.not_isSome_iff_eq_none.mp hf
    rcases List.mem_append.mp h with hmem | hmem
    · have hfalse := List.find?_eq_none.mp hnone p hmem
      exact Or.inr ⟨hmem, by simpa using hfalse⟩
    · simp only [List.mem_singleton] at hmem
      exact Or.inl hmem


/-! ### Characterization of the grouping fold -/

/-- Flight count recorded for airport `a` (0 if the group does not exist). -/
def cntA (stats : List (String × GroupAcc)) (a : String) : Nat :=
  ((sget stats a).getD emptyGroup).flight_count

/-- Total in-flight minutes recorded for airport `a`. -/
def totA (stats : List (String × GroupAcc)) (a : String) : ℚ :=
  ((sget stats a).getD emptyGroup).total_flight_time

/-- Minutes recorded for aircraft `k` under airport `a`. -/
def avA (stats : List (String × GroupAcc)) (a : String) (k : Nat) : ℚ :=
  (qget ((sget stats a).getD emptyGroup).aircraft_flight_times k).getD 0

/-- Whether aircraft `k` has an entry under airport `a`. -/
def hasK (stats : List (String × GroupAcc)) (a : String) (k : Nat) : Bool :=
  (qget ((sget stats a).getD emptyGroup).aircraft_flight_times k).isSome

theorem cntA_statsStep (s e : Time) (stats : List (String × GroupAcc))
    (f : Flight) (a : String) :
    cntA (statsStep s e stats f) a =
      cntA stats a + (if f.departure_airport = a then 1 else 0) := by
  by_cases hfa : f.departure_airport = a
  · subst hfa
    simp only [cntA, statsStep, sget, sset, qget, qset]
    rw [dget_dset_self]
    cases ht : intTruthy f.aircraft_id <;> simp [ht]
  · simp only [cntA, statsStep, sget, sset, qget, qset]
    rw [dget_dset_ne _ _ _ _ (Ne.symm hfa)]
    simp [hfa]

theorem totA_statsStep (s e : Time) (stats : List (String × GroupAcc))
    (f : Flight) (a : String) :
    totA (statsStep s e stats f) a = totA stats a + contribOf s e a f := by
  by_cases hfa : f.departure_airport = a
  · subst hfa
    simp only [totA, statsStep, sget, sset, qget, qset, contribOf]
    rw [dget_dset_self]
    cases ht : intTruthy f.aircraft_id <;> simp [ht]
  · simp only [totA, statsStep, sget, sset, qget, qset, contribOf]
    rw [dget_dset_ne _ _ _ _ (Ne.symm hfa)]
    simp [hfa]

theorem avA_statsStep (s e : Time) (stats : List (String × GroupAcc))
    (f : Flight) (a : String) (k : Nat) :
    avA (statsStep s e stats f) a k = avA stats a k + contribOfK s e a k f := by
  by_cases hfa : f.departure_airport = a
  · subst hfa
    simp only [avA, statsStep, sget, sset, qget, qset, contribOfK]
    rw [dget_dset_self]
    cases ht : intTruthy f.aircraft_id
    · simp [ht]
    · by_cases hk : f.aircraft_id.getD 0 = k
      · subst hk
        simp only [ht, if_true, Option.getD_some]
        rw [dget_dset_self]
        simp
      · simp only [ht, if_true, Option.getD_some]
        rw [dget_dset_ne _ _ _ _ (Ne.symm hk)]
        simp [hk]
  · simp only [avA, statsStep, sget, sset, qget, qset, contribOfK]
    rw [dget_dset_ne _ _ _ _ (Ne.symm hfa)]
    simp [hfa]

theorem hasK_statsStep (s e : Time) (stats : List (String × GroupAcc))
    (f : Flight) (a : String) (k : Nat) :
    hasK (statsStep s e stats f) a k =
      (hasK stats a k ||
        (f.departure_airport == a && intTruthy f.aircraft_id
          && (f.aircraft_id.getD 0 == k))) := by
  by_cases hfa : f.departure_airport = a
  · subst hfa
    simp only [hasK, statsStep, sget, sset, qget, qset]
    rw [dget_dset_self]
    cases ht : intTruthy f.aircraft_id
    · simp [ht]
    · by_cases hk : f.aircraft_id.getD 0 = k
      · subst hk
        simp only [ht, if_true, Option.getD_some]
        rw [dget_dset_self]
        simp
      · simp only [ht, if_true, Option.getD_some]
        rw [dget_dset_ne _ _ _ _ (Ne.symm hk)]
        simp [hk]
  · simp only [hasK, statsStep, sget, sset, qget, qset]
    rw [dget_dset_ne _ _ _ _ (Ne.symm hfa)]
    simp [hfa]

theorem hasA_statsStep (s e : Time) (stats : List (String × GroupAcc))
    (f : Flight) (a : String) :
    (sget (statsStep s e stats f) a).isSome =
      ((sget stats a).isSome || (f.departure_airport == a)) := by
  by_cases hfa : f.departure_airport = a
  · subst hfa
    simp only [statsStep, sget, sset, qget, qset]
    rw [dget_dset_self]
    simp
  · simp only [statsStep, sget, sset, qget, qset]
    rw [dget_dset_ne _ _ _ _ (Ne.symm hfa)]
    simp [hfa]

theorem cntA_foldl (s e : Time) (fs : List Flight)
    (stats : List (String × GroupAcc)) (a : String) :
    cntA (fs.foldl (statsStep s e) stats) a =
      cntA stats a + fs.countP (fun f => f.departure_airport == a) := by
  induction fs generalizing stats with
  | nil => simp
  | cons f fs ih =>
    simp only [List.foldl_cons, List.countP_cons]
    rw [ih, cntA_statsStep]
    by_cases hfa : f.departure_airport = a
    · simp only [hfa, beq_self_eq_true, if_true]
      omega
    · simp [hfa]

theorem totA_foldl (s e : Time) (fs : List Flight)
    (stats : List (String × GroupAcc)) (a : String) :
    totA (fs.foldl (statsStep s e) stats) a =
      totA stats a + (fs.map (contribOf s e a)).sum := by
  induction fs generalizing stats with
  | nil => simp
  | cons f fs ih =>
    simp only [List.foldl_cons, List.map_cons, List.sum_cons]
    rw [ih, totA_statsStep]
    ring

theorem avA_foldl (s e : Time) (fs : List Flight)
    (stats : List (String × GroupAcc)) (a : String) (k : Nat) :
    avA (fs.foldl (statsStep s e) stats) a k =
      avA stats a k + (fs.map (contribOfK s e a k)).sum := by
  induction fs generalizing stats with
  | nil => simp
  | cons f fs ih =>
    simp only [List.foldl_cons, List.map_cons, List.sum_cons]
    rw [ih, avA_statsStep]
    ring

theorem hasK_foldl (s e : Time) (fs : List Flight)
    (stats : List (String × GroupAcc)) (a : String) (k : Nat) :
    hasK (fs.foldl (statsStep s e) stats) a k =
      (hasK stats a k ||
        fs.any (fun f => f.departure_airport == a && intTruthy f.aircraft_id
          && (f.aircraft_id.getD 0 == k))) := by
  induction fs generalizing stats with
  | nil => simp
  | cons f fs ih =>
    simp only [List.foldl_cons, List.any_cons]
    rw [ih, hasK_statsStep]
    cases hasK stats a k <;> simp [Bool.or_assoc, Bool.or_comm, Bool.or_left_comm]

theorem hasA_foldl (s e : Time) (fs : List Flight)
    (stats : List (String × GroupAcc)) (a : String) :
    (sget (fs.foldl (statsStep s e) stats) a).isSome =
      ((sget stats a).isSome || fs.any (fun f => f.departure_airport == a)) := by
  induction fs generalizing stats with
  | nil => simp
  | cons f fs ih =>
    simp only [List.foldl_cons, List.any_cons]
    rw [ih, hasA_statsStep]
    cases (sget stats a).isSome <;> simp [Bool.or_assoc, Bool.or_comm, Bool.or_left_comm]

theorem stats_keys_nodup (s e : Time) (fs : List Flight)
    (stats : List (String × GroupAcc))
    (h : (stats.map Prod.fst).Nodup) :
    ((fs.foldl (statsStep s e) stats).map Prod.fst).Nodup := by
  induction fs generalizing stats with
  | nil => exact h
  | cons f fs ih =>
    refine ih _ ?_
    simp only [statsStep, sset, sget, qget, qset]
    exact keys_nodup_dset _ _ _ h

/-- Invariant: every group's per-aircraft dictionary has distinct keys. -/
def timesNodupInv (stats : List (String × GroupAcc)) : Prop :=
  ∀ a g, sget stats a = some g → (g.aircraft_flight_times.map Prod.fst).Nodup

theorem timesNodupInv_statsStep (s e : Time) (stats : List (String × GroupAcc))
    (f : Flight) (h : timesNodupInv stats) :
    timesNodupInv (statsStep s e stats f) := by
  intro a g hg
  by_cases hfa : a = f.departure_airport
  · subst hfa
    simp only [statsStep, sget, sset, qget, qset] at hg
    rw [dget_dset_self] at hg
    have hg0 : ((((dget stats f.departure_airport).getD
        emptyGroup).aircraft_flight_times).map Prod.fst).Nodup := by
      cases hs : dget stats f.departure_airport with
      | none => simp [emptyGroup]
      | some g0 => simpa using h f.departure_airport g0 (by simpa [sget] using hs)
    cases ht : intTruthy f.aircraft_id
    · simp only [ht, Bool.false_eq_true, if_false, Option.some_inj] at hg
      subst hg
      simpa using hg0
    · simp only [ht, if_true, Option.some_inj] at hg
      subst hg
      simpa using keys_nodup_dset _ _ _ hg0
  · simp only [statsStep, sget, sset, qget, qset] at hg
    rw [dget_dset_ne _ _ _ _ hfa] at hg
    exact h a g hg

theorem timesNodupInv_foldl (s e : Time) (fs : List Flight)
    (stats : List (String × GroupAcc)) (h : timesNodupInv stats) :
    timesNodupInv (fs.foldl (statsStep s e) stats) := by
  induction fs generalizing stats with
  | nil => exact h
  | cons f fs ih => exact ih _ (timesNodupInv_statsStep s e stats f h)


/-! ### Rounding lemmas -/

theorem rhe_ge_floor (q : ℚ) : ⌊q⌋ ≤ rhe q := by
  unfold rhe
  split_ifs <;> omega

theorem rhe_le_floor_add_one (q : ℚ) : rhe q ≤ ⌊q⌋ + 1 := by
  unfold rhe
  split_ifs <;> omega

theorem rhe_mono {x y : ℚ} (h : x ≤ y) : rhe x ≤ rhe y := by
  rcases lt_or_eq_of_le (Int.floor_le_floor h) with hf | hf
  · calc rhe x ≤ ⌊x⌋ + 1 := rhe_le_floor_add_one x
      _ ≤ ⌊y⌋ := by omega
      _ ≤ rhe y := rhe_ge_floor y
  · unfold rhe
    rw [hf]
    split_ifs <;> first | omega | (exfalso; linarith)

theorem round2_mono {x y : ℚ} (h : x ≤ y) : round2 x ≤ round2 y := by
  unfold round2
  have h1 : rhe (100 * x) ≤ rhe (100 * y) := rhe_mono (by linarith)
  have h2 : ((rhe (100 * x) : ℤ) : ℚ) ≤ ((rhe (100 * y) : ℤ) : ℚ) := by
    exact_mod_cast h1
  linarith

theorem round2_zero : round2 0 = 0 := by
  norm_num [round2, rhe]


/-! ### Report-level characterization -/

/-- The `stats` dictionary after the grouping loop. -/
def statsOf (db : DB) (s e : Time) : List (String × GroupAcc) :=
  (selectedFlights db s e).foldl (statsStep s e) []

/-- The `result` list of the response. -/
def reportData (db : DB) (s e : Time) : List AirportStats :=
  (statsOf db s e).map (fun p => shapeGroup db p.1 p.2)

theorem cntA_nil (a : String) : cntA [] a = 0 := rfl

theorem totA_nil (a : String) : totA [] a = 0 := rfl

theorem avA_nil (a : String) (k : Nat) : avA [] a k = 0 := rfl

theorem hasK_nil (a : String) (k : Nat) : hasK [] a k = false := rfl

theorem sget_nil (a : String) : sget [] a = none := rfl

theorem cntA_statsOf (db : DB) (s e : Time) (a : String) :
    cntA (statsOf db s e) a = groupCount db s e a := by
  simp only [statsOf, groupCount]
  rw [cntA_foldl, cntA_nil]
  omega

theorem totA_statsOf (db : DB) (s e : Time) (a : String) :
    totA (statsOf db s e) a = groupTotal db s e a := by
  simp only [statsOf, groupTotal]
  rw [totA_foldl, totA_nil]
  ring

theorem avA_statsOf (db : DB) (s e : Time) (a : String) (k : Nat) :
    avA (statsOf db s e) a k = aircraftTotal db s e a k := by
  simp only [statsOf, aircraftTotal]
  rw [avA_foldl, avA_nil]
  ring

theorem hasK_statsOf (db : DB) (s e : Time) (a : String) (k : Nat) :
    hasK (statsOf db s e) a k =
      (selectedFlights db s e).any
        (fun f => f.departure_airport == a && intTruthy f.aircraft_id
          && (f.aircraft_id.getD 0 == k)) := by
  simp only [statsOf]
  rw [hasK_foldl, hasK_nil]
  simp

theorem hasA_statsOf (db : DB) (s e : Time) (a : String) :
    (sget (statsOf db s e) a).isSome =
      (selectedFlights db s e).any (fun f => f.departure_airport == a) := by
  simp only [statsOf]
  rw [hasA_foldl, sget_nil]
  simp

/-- Success path of the statistics handler, fully unfolded. -/
theorem flight_statistics_ok (db : DB) (s e : Time) (hlt : s < e) :
    flight_statistics db (some (.valid s)) (some (.valid e)) =
      .ok { data := reportData db s e,
            meta :=
              { start_time := s, end_time := e,
                total_airports := (reportData db s e).length,
                total_flights :=
                  ((reportData db s e).map (fun d => d.flight_count)).sum } } := by
  simp only [flight_statistics, parse_datetime, reportData, statsOf, selectedFlights]
  rw [if_neg (not_le.mpr hlt)]

/-- Every airport group of the report comes from one `stats` entry. -/
theorem group_mem_sget (db : DB) (s e : Time) (g : AirportStats)
    (hg : g ∈ reportData db s e) :
    ∃ acc, sget (statsOf db s e) g.departure_airport = some acc ∧
      g = shapeGroup db g.departure_airport acc := by
  rcases List.mem_map.mp hg with ⟨p, hp, hge⟩
  have hkeys := stats_keys_nodup s e (selectedFlights db s e) [] (by simp)
  have hdep : g.departure_airport = p.1 := by rw [← hge]; rfl
  refine ⟨p.2, ?_, ?_⟩
  · rw [hdep]
    have hmem : (p.1, p.2) ∈ statsOf db s e := by simpa using hp
    simpa [sget, statsOf] using
      mem_dget (l := statsOf db s e) (by simpa [statsOf] using hkeys) hmem
  · rw [hdep, ← hge]


/-! ### Claim theorems -/

/-- C3: for every flight with `departure_time < arrival_time` and every
window with `start_time < end_time`, the three-clause selection test of
`flight_statistics` is logically equivalent to the general
interval-intersection test `departure_time ≤ end_time ∧ start_time ≤
arrival_time`; in particular a boundary-touching flight with
`arrival_time = start_time` is selected. -/
theorem overlapsWindow_iff (s e : Time) (f : Flight) :
    overlapsWindow s e f = true ↔
      (s ≤ f.departure_time ∧ f.departure_time ≤ e) ∨
      (s ≤ f.arrival_time ∧ f.arrival_time ≤ e) ∨
      (f.departure_time ≤ s ∧ e ≤ f.arrival_time) := by
  simp [overlapsWindow, or_assoc]

theorem overlap_three_clause_equiv (f : Flight) (s e : Time)
    (hf : f.departure_time < f.arrival_time) (hw : s < e) :
    (overlapsWindow s e f = true ↔ intervalIntersects f s e) ∧
    (f.arrival_time = s → overlapsWindow s e f = true) := by
  simp only [overlapsWindow_iff, intervalIntersects]
  constructor
  · constructor
    · rintro (⟨h1, h2⟩ | ⟨h1, h2⟩ | ⟨h1, h2⟩) <;> exact ⟨by linarith, by linarith⟩
    · rintro ⟨h1, h2⟩
      rcases le_or_lt s f.departure_time with h3 | h3
      · exact Or.inl ⟨h3, h1⟩
      · rcases le_or_lt f.arrival_time e with h4 | h4
        · exact Or.inr (Or.inl ⟨h2, h4⟩)
        · exact Or.inr (Or.inr ⟨le_of_lt h3, le_of_lt h4⟩)
  · intro h
    exact Or.inr (Or.inl ⟨by rw [h], by rw [h]; exact le_of_lt hw⟩)

def c3flight : Flight :=
  { id := 1, departure_airport := "ABCD", arrival_airport := "EFGH",
    departure_time := 0, arrival_time := 600, aircraft_id := none }

/-- Witness for C3 at a concrete boundary-touching flight. -/
theorem overlap_three_clause_equiv_witness :
    (overlapsWindow 600 1200 c3flight = true ↔ intervalIntersects c3flight 600 1200) ∧
    (c3flight.arrival_time = 600 → overlapsWindow 600 1200 c3flight = true) :=
  overlap_three_clause_equiv c3flight 600 1200 (by decide) (by decide)

/-- C4: a selected flight's contribution is the clipped difference
`min(arrival_time, end_time) - max(departure_time, start_time)` in
fractional minutes when strictly positive and zero otherwise; a flight
spanning the whole window contributes exactly `(end_time - start_time)`
minutes. -/
theorem inflight_clipping (f : Flight) (s e : Time) :
    (max f.departure_time s < min f.arrival_time e →
      calculate_inflight_time f s e =
        (min f.arrival_time e - max f.departure_time s) / 60) ∧
    (¬ max f.departure_time s < min f.arrival_time e →
      calculate_inflight_time f s e = 0) ∧
    (f.departure_time ≤ s → e ≤ f.arrival_time → s < e →
      calculate_inflight_time f s e = (e - s) / 60) := by
  refine ⟨?_, ?_, ?_⟩
  · intro h
    simp only [calculate_inflight_time]
    rw [if_pos h]
  · intro h
    simp only [calculate_inflight_time]
    rw [if_neg h]
  · intro h1 h2 h3
    simp only [calculate_inflight_time]
    rw [max_eq_right h1, min_eq_right h2, if_pos h3]

def c4flight : Flight :=
  { id := 1, departure_airport := "ABCD", arrival_airport := "EFGH",
    departure_time := 0, arrival_time := 6000, aircraft_id := some 1 }

/-- Witness for C4: the spanning flight contributes the window length. -/
theorem inflight_clipping_witness :
    calculate_inflight_time c4flight 1800 5400 = (5400 - 1800) / 60 :=
  (inflight_clipping c4flight 1800 5400).2.2 (by decide) (by decide) (by decide)

/-- C5: a flight with a null `aircraft_id` only increments its
departure airport's `flight_count`: the group's
`aircraft_flight_times` and `total_flight_time` are untouched, and
all other groups are untouched. -/
theorem null_aircraft_counts_only (s e : Time) (stats : List (String × GroupAcc))
    (f : Flight) (h : f.aircraft_id = none) :
    sget (statsStep s e stats f) f.departure_airport =
      some { (sget stats f.departure_airport).getD emptyGroup with
             flight_count :=
               ((sget stats f.departure_airport).getD emptyGroup).flight_count + 1 } ∧
    ∀ a, a ≠ f.departure_airport → sget (statsStep s e stats f) a = sget stats a := by
  constructor
  · simp only [statsStep, sget, sset, qget, qset]
    rw [dget_dset_self]
    simp [h, intTruthy]
  · intro a ha
    simp only [statsStep, sget, sset, qget, qset]
    rw [dget_dset_ne _ _ _ _ ha]

def c5flight : Flight :=
  { id := 7, departure_airport := "ABCD", arrival_airport := "EFGH",
    departure_time := 60, arrival_time := 120, aircraft_id := none }

/-- Witness for C5 on the empty accumulator. -/
theorem null_aircraft_counts_only_witness :
    sget (statsStep 0 600 [] c5flight) c5flight.departure_airport =
      some { (sget [] c5flight.departure_airport).getD emptyGroup with
             flight_count :=
               ((sget [] c5flight.departure_airport).getD emptyGroup).flight_count + 1 } ∧
    ∀ a, a ≠ c5flight.departure_airport →
      sget (statsStep 0 600 [] c5flight) a = sget [] a :=
  null_aircraft_counts_only 0 600 [] c5flight (by decide)

/-- Stored flight used to exhibit the departure-only update bug. -/
def depOnlyDB : DB :=
  { aircraft := [],
    flights := [{ id := 1, departure_airport := "KJFK", arrival_airport := "EGLL",
                  departure_time := 6000, arrival_time := 7200, aircraft_id := none }] }

/-- Update request carrying only a new `departure_time`, later than the
stored `arrival_time`. -/
def depOnlyReq : FlightUpdate :=
  { departure_time := some (.valid 10000), arrival_time := none,
    departure_airport := none, arrival_airport := none, aircraft_id := none }

/-- C1 (violated by the code): `update_flight` validates a new
`departure_time` only against "now", never against the prospective
arrival, so an update that supplies only a departure time later than the
stored arrival succeeds and commits a record with
`arrival_time < departure_time`. -/
theorem update_departure_only_accepted :
    (update_flight depOnlyDB 1 depOnlyReq 0).1.isOk = true ∧
    ∀ f2 ∈ (update_flight depOnlyDB 1 depOnlyReq 0).2.flights,
      f2.arrival_time < f2.departure_time := by decide

theorem create_flight_ok_or_unchanged (db : DB) (data : FlightCreate)
    (now : Time) (newId : Nat) :
    (create_flight db data now newId).1.isOk = true ∨
      (create_flight db data now newId).2 = db := by
  simp only [create_flight]
  split
  · split
    · right; rfl
    · split
      · right; rfl
      · split
        · right; rfl
        · split
          · right; rfl
          · split
            · right; rfl
            · split
              · right; rfl
              · split
                · right; rfl
                · left; rfl
  · right; rfl

theorem create_aircraft_ok_or_unchanged (db : DB) (data : AircraftCreate)
    (newId : Nat) :
    (create_aircraft db data newId).1.isOk = true ∨
      (create_aircraft db data newId).2 = db := by
  simp only [create_aircraft]
  split
  · split
    · right; rfl
    · left; rfl
  · right; rfl

/-- C2: a request that is answered with an error commits nothing: for each
of the four mutating handlers, an error response leaves the store exactly
as it was (the staged partial writes are rolled back with the unit of
work).  In particular an update staging a valid new `departure_time` and
then failing on a later field leaves the stored flight untouched. -/
theorem error_leaves_store_unchanged :
    (∀ (db : DB) (i : Nat) (data : FlightUpdate) (now : Time),
      (update_flight db i data now).1.isOk = false →
      (update_flight db i data now).2 = db) ∧
    (∀ (db : DB) (data : FlightCreate) (now : Time) (newId : Nat),
      (create_flight db data now newId).1.isOk = false →
      (create_flight db data now newId).2 = db) ∧
    (∀ (db : DB) (i : Nat) (data : AircraftUpdate),
      (update_aircraft db i data).1.isOk = false →
      (update_aircraft db i data).2 = db) ∧
    (∀ (db : DB) (data : AircraftCreate) (newId : Nat),
      (create_aircraft db data newId).1.isOk = false →
      (create_aircraft db data newId).2 = db) := by
  refine ⟨?_, ?_, ?_, ?_⟩
  · intro db i data now h
    simp only [update_flight] at h ⊢
    cases hf : findFlight db i with
    | none => simp [hf]
    | some f0 =>
      cases hs : update_flight_stage db f0 data now with
      | error err => simp [hf, hs]
      | ok f =>
        simp only [hf, hs] at h
        exact Bool.noConfusion h
  · intro db data now newId h
    rcases create_flight_ok_or_unchanged db data now newId with hok | heq
    · rw [h] at hok; exact absurd hok (by simp)
    · exact heq
  · intro db i data h
    simp only [update_aircraft] at h ⊢
    cases hf : findAircraft db i with
    | none => simp [hf]
    | some a0 =>
      cases hs : update_aircraft_stage db i a0 data with
      | error err => simp [hf, hs]
      | ok a =>
        simp only [hf, hs] at h
        exact Bool.noConfusion h
  · intro db data newId h
    rcases create_aircraft_ok_or_unchanged db data newId with hok | heq
    · rw [h] at hok; exact absurd hok (by simp)
    · exact heq

/-- Stored state for the C2 witness scenario. -/
def rollbackDB : DB :=
  { aircraft := [],
    flights := [{ id := 1, departure_airport := "KJFK", arrival_airport := "EGLL",
                  departure_time := 6000, arrival_time := 7200, aircraft_id := none }] }

/-- Update carrying a valid future `departure_time` followed by a
malformed `arrival_airport`. -/
def rollbackReq : FlightUpdate :=
  { departure_time := some (.valid 6500), arrival_time := none,
    departure_airport := none, arrival_airport := some "BA1D", aircraft_id := none }

/-- Witness for C2: the staged departure change is discarded. -/
theorem error_leaves_store_unchanged_witness :
    (update_flight rollbackDB 1 rollbackReq 0).1.isOk = false ∧
    (update_flight rollbackDB 1 rollbackReq 0).2 = rollbackDB :=
  ⟨by decide, error_leaves_store_unchanged.1 rollbackDB 1 rollbackReq 0 (by decide)⟩

/-- C7: the statistics request succeeds exactly when both bounds are
present, both parse, and `end_time` is strictly after `start_time`; every
failure is classified as a validation error, and on success the
aggregator is total (no error for any stored flight set). -/
theorem stats_window_validation (db : DB) (ss es : Option DtStr) :
    ((flight_statistics db ss es).isOk = true ↔
      ∃ s e, ss = some (.valid s) ∧ es = some (.valid e) ∧ s < e) ∧
    ∀ err, flight_statistics db ss es = .error err → err.1 = .validation := by
  constructor
  · constructor
    · intro h
      cases ss with
      | none =>
        simp only [flight_statistics] at h
        exact Bool.noConfusion h
      | some v =>
        cases es with
        | none =>
          simp only [flight_statistics] at h
          exact Bool.noConfusion h
        | some w =>
          cases v with
          | invalid =>
            simp only [flight_statistics, parse_datetime] at h
            exact Bool.noConfusion h
          | valid s =>
            cases w with
            | invalid =>
              simp only [flight_statistics, parse_datetime] at h
              exact Bool.noConfusion h
            | valid e =>
              by_cases hlt : e ≤ s
              · simp only [flight_statistics, parse_datetime, if_pos hlt] at h
                exact Bool.noConfusion h
              · exact ⟨s, e, rfl, rfl, not_le.mp hlt⟩
    · rintro ⟨s, e, rfl, rfl, hlt⟩
      rw [flight_statistics_ok db s e hlt]
      rfl
  · intro err herr
    cases ss with
    | none =>
      simp only [flight_statistics, Except.error.injEq] at herr
      rw [← herr]
    | some v =>
      cases es with
      | none =>
        simp only [flight_statistics, Except.error.injEq] at herr
        rw [← herr]
      | some w =>
        cases v with
        | invalid =>
          simp only [flight_statistics, parse_datetime, Except.error.injEq] at herr
          rw [← herr]
        | valid s =>
          cases w with
          | invalid =>
            simp only [flight_statistics, parse_datetime, Except.error.injEq] at herr
            rw [← herr]
          | valid e =>
            by_cases hlt : e ≤ s
            · simp only [flight_statistics, parse_datetime, if_pos hlt,
                Except.error.injEq] at herr
              rw [← herr]
            · rw [flight_statistics_ok db s e (not_le.mp hlt)] at herr
              exact Except.noConfusion herr

def anyDB : DB :=
  { aircraft := [],
    flights := [{ id := 1, departure_airport := "ABCD", arrival_airport := "EFGH",
                  departure_time := 30, arrival_time := 90, aircraft_id := none }] }

/-- Witness for C7: a well-formed window over a stored flight set succeeds. -/
theorem stats_window_validation_witness :
    (flight_statistics anyDB (some (.valid 0)) (some (.valid 60))).isOk = true :=
  (stats_window_validation anyDB (some (.valid 0)) (some (.valid 60))).1.mpr
    ⟨0, 60, rfl, rfl, by norm_num⟩

theorem timesNodup_statsOf (db : DB) (s e : Time) :
    timesNodupInv (statsOf db s e) := by
  apply timesNodupInv_foldl
  intro a g hg
  exact Option.noConfusion hg

/-- C6: in the statistics response every group's `average_flight_time` is
its total in-flight minutes over its flight count rounded to 2 decimals,
every per-aircraft value is the accumulated minutes rounded to 2
decimals, and the metadata echoes the window and reports the group count
and the sum of the groups' flight counts. -/
theorem flight_stats_report_shape (db : DB) (ss es : Option DtStr)
    (s e : Time) (r : StatsReport)
    (hss : ss = some (.valid s)) (hes : es = some (.valid e))
    (hr : flight_statistics db ss es = .ok r) :
    (∀ g ∈ r.data,
      0 < g.flight_count ∧
      g.flight_count = groupCount db s e g.departure_airport ∧
      g.average_flight_time =
        round2 (groupTotal db s e g.departure_airport / (g.flight_count : ℚ)) ∧
      ∀ en ∈ g.aircraft_flight_times,
        en.in_flight_minutes =
          round2 (aircraftTotal db s e g.departure_airport en.aircraft_id)) ∧
    r.meta.start_time = s ∧ r.meta.end_time = e ∧
    r.meta.total_airports = r.data.length ∧
    r.meta.total_flights = (r.data.map (fun d => d.flight_count)).sum := by
  subst hss hes
  by_cases hlt : s < e
  case neg =>
    simp only [flight_statistics, parse_datetime, if_pos (not_lt.mp hlt)] at hr
    exact Except.noConfusion hr
  case pos =>
    rw [flight_statistics_ok db s e hlt] at hr
    injection hr with hr'
    subst hr'
    refine ⟨?_, rfl, rfl, rfl, rfl⟩
    intro g hg
    obtain ⟨acc, hacc, hshape⟩ := group_mem_sget db s e g hg
    have hcnt : acc.flight_count = groupCount db s e g.departure_airport := by
      simpa [cntA, hacc] using cntA_statsOf db s e g.departure_airport
    have htot : acc.total_flight_time = groupTotal db s e g.departure_airport := by
      simpa [totA, hacc] using totA_statsOf db s e g.departure_airport
    have hpos : 0 < acc.flight_count := by
      have hsome : (sget (statsOf db s e) g.departure_airport).isSome = true := by
        rw [hacc]; rfl
      rw [hasA_statsOf] at hsome
      rcases List.any_eq_true.mp hsome with ⟨f, hf, hfa⟩
      rw [hcnt]
      exact List.countP_pos_iff.mpr ⟨f, hf, hfa⟩
    have htn : (acc.aircraft_flight_times.map Prod.fst).Nodup :=
      timesNodup_statsOf db s e g.departure_airport acc hacc
    refine ⟨?_, ?_, ?_, ?_⟩
    · rw [hshape]
      simpa [shapeGroup] using hpos
    · rw [hshape]
      simpa [shapeGroup] using hcnt
    · rw [hshape]
      simp only [shapeGroup]
      rw [if_pos (by simpa [shapeGroup] using hpos), htot, hcnt]
    · intro en hen
      rw [hshape] at hen
      simp only [shapeGroup, List.mem_map] at hen
      obtain ⟨p, hp, he⟩ := hen
      have hq : qget acc.aircraft_flight_times p.1 = some p.2 :=
        mem_dget htn (by simpa using hp)
      have hval : p.2 = aircraftTotal db s e g.departure_airport p.1 := by
        have hav := avA_statsOf db s e g.departure_airport p.1
        simpa [avA, hacc, hq] using hav
      rw [← he]
      simp only [shapeEntry, hval]

/-- Store for the report-shape witness. -/
def statsDB : DB :=
  { aircraft := [{ id := 1, serial_number := "SN01", manufacturer := "Airbus" }],
    flights := [{ id := 1, departure_airport := "ABCD", arrival_airport := "EFGH",
                  departure_time := 600, arrival_time := 1800, aircraft_id := some 1 }] }

/-- The report the handler produces on `statsDB` for the window [0, 3600]. -/
def statsReportW : StatsReport :=
  { data := reportData statsDB 0 3600,
    meta := { start_time := 0, end_time := 3600,
              total_airports := (reportData statsDB 0 3600).length,
              total_flights :=
                ((reportData statsDB 0 3600).map (fun d => d.flight_count)).sum } }

/-- Witness for C6 on a concrete store and window. -/
theorem flight_stats_report_shape_witness :
    (∀ g ∈ statsReportW.data,
      0 < g.flight_count ∧
      g.flight_count = groupCount statsDB 0 3600 g.departure_airport ∧
      g.average_flight_time =
        round2 (groupTotal statsDB 0 3600 g.departure_airport / (g.flight_count : ℚ)) ∧
      ∀ en ∈ g.aircraft_flight_times,
        en.in_flight_minutes =
          round2 (aircraftTotal statsDB 0 3600 g.departure_airport en.aircraft_id)) ∧
    statsReportW.meta.start_time = 0 ∧ statsReportW.meta.end_time = 3600 ∧
    statsReportW.meta.total_airports = statsReportW.data.length ∧
    statsReportW.meta.total_flights =
      (statsReportW.data.map (fun d => d.flight_count)).sum :=
  flight_stats_report_shape statsDB (some (.valid 0)) (some (.valid 3600)) 0 3600
    statsReportW rfl rfl (flight_statistics_ok statsDB 0 3600 (by norm_num))

theorem calculate_inflight_time_nonneg (f : Flight) (s e : Time) :
    0 ≤ calculate_inflight_time f s e := by
  simp only [calculate_inflight_time]
  split_ifs with h
  · linarith
  · exact le_refl 0

theorem groupTotal_nonneg (db : DB) (s e : Time) (a : String) :
    0 ≤ groupTotal db s e a := by
  apply List.sum_nonneg
  intro x hx
  rcases List.mem_map.mp hx with ⟨f, hf, rfl⟩
  simp only [contribOf]
  split_ifs with h
  · exact calculate_inflight_time_nonneg f s e
  · exact le_refl 0

/-- C10: a selected flight with an assigned aircraft whose clipped overlap
with the window is empty (e.g. `arrival_time = start_time`) contributes 0
but still produces an aircraft entry in its group (value 0 when it is the
aircraft's only flight), still counts in `flight_count`, and cannot raise
the group's average (the average computed with it is at most the average
over the remaining flights). -/
theorem zero_overlap_entry_not_omitted (db : DB) (s e : Time) (f : Flight)
    (k : Nat) (r : StatsReport)
    (hmem : f ∈ db.flights) (harr : f.arrival_time = s)
    (hk : f.aircraft_id = some k) (hk0 : k ≠ 0)
    (hr : flight_statistics db (some (.valid s)) (some (.valid e)) = .ok r) :
    overlapsWindow s e f = true ∧
    calculate_inflight_time f s e = 0 ∧
    ∃ g ∈ r.data, g.departure_airport = f.departure_airport ∧
      g.flight_count = groupCount db s e f.departure_airport ∧
      (∃ en ∈ g.aircraft_flight_times, en.aircraft_id = k ∧
        en.in_flight_minutes =
          round2 (aircraftTotal db s e f.departure_airport k)) ∧
      ((∀ f2 ∈ db.flights, f2.aircraft_id = some k → f2 = f) →
        ∃ en ∈ g.aircraft_flight_times, en.aircraft_id = k ∧
          en.in_flight_minutes = 0) ∧
      ∀ m : ℕ, g.flight_count = m + 1 → 0 < m →
        g.average_flight_time ≤
          round2 (groupTotal db s e f.departure_airport / (m : ℚ)) := by
  by_cases hlt : s < e
  case neg =>
    simp only [flight_statistics, parse_datetime, if_pos (not_lt.mp hlt)] at hr
    exact Except.noConfusion hr
  case pos =>
    have hsel : overlapsWindow s e f = true := by
      rw [overlapsWindow_iff]
      exact Or.inr (Or.inl ⟨by rw [harr], by rw [harr]; exact le_of_lt hlt⟩)
    have hzero : calculate_inflight_time f s e = 0 := by
      simp only [calculate_inflight_time]
      rw [if_neg]
      have h1 : min f.arrival_time e = s := by
        rw [harr]; exact min_eq_left (le_of_lt hlt)
      rw [h1]
      exact not_lt.mpr (le_max_right _ _)
    have htr : intTruthy f.aircraft_id = true := by
      rw [hk]
      exact bne_iff_ne.mpr hk0
    have hfsel : f ∈ selectedFlights db s e := List.mem_filter.mpr ⟨hmem, hsel⟩
    have hsome : (sget (statsOf db s e) f.departure_airport).isSome = true := by
      rw [hasA_statsOf]
      exact List.any_eq_true.mpr ⟨f, hfsel, by simp⟩
    obtain ⟨acc, hacc⟩ := Option.isSome_iff_exists.mp hsome
    have hcnt : acc.flight_count = groupCount db s e f.departure_airport := by
      simpa [cntA, hacc] using cntA_statsOf db s e f.departure_airport
    have htot : acc.total_flight_time = groupTotal db s e f.departure_airport := by
      simpa [totA, hacc] using totA_statsOf db s e f.departure_airport
    have htn : (acc.aircraft_flight_times.map Prod.fst).Nodup :=
      timesNodup_statsOf db s e f.departure_airport acc hacc
    have hhask : hasK (statsOf db s e) f.departure_airport k = true := by
      rw [hasK_statsOf]
      refine List.any_eq_true.mpr ⟨f, hfsel, ?_⟩
      have htrk : intTruthy (some k) = true := bne_iff_ne.mpr hk0
      simp [hk, htrk]
    have hqk : (qget acc.aircraft_flight_times k).isSome = true := by
      simpa [hasK, hacc] using hhask
    obtain ⟨v, hv⟩ := Option.isSome_iff_exists.mp hqk
    have hvval : v = aircraftTotal db s e f.departure_airport k := by
      have hav := avA_statsOf db s e f.departure_airport k
      simpa [avA, hacc, hv] using hav
    have hpairmem : (k, v) ∈ acc.aircraft_flight_times := dget_eq_some_mem hv
    rw [flight_statistics_ok db s e hlt] at hr
    injection hr with hr'
    subst hr'
    have hpair : (f.departure_airport, acc) ∈ statsOf db s e :=
      dget_eq_some_mem (by simpa [sget] using hacc)
    refine ⟨hsel, hzero, shapeGroup db f.departure_airport acc,
      List.mem_map.mpr ⟨(f.departure_airport, acc), hpair, rfl⟩, rfl, ?_, ?_, ?_, ?_⟩
    · simpa [shapeGroup] using hcnt
    · refine ⟨shapeEntry db (k, v), ?_, rfl, by simp [shapeEntry, hvval]⟩
      simp only [shapeGroup, List.mem_map]
      exact ⟨(k, v), hpairmem, rfl⟩
    · intro huniq
      have hAT : aircraftTotal db s e f.departure_airport k = 0 := by
        apply List.sum_eq_zero
        intro x hx
        rcases List.mem_map.mp hx with ⟨f2, hf2, rfl⟩
        simp only [contribOfK]
        split_ifs with hcond
        · simp only [Bool.and_eq_true, beq_iff_eq] at hcond
          have hf2k : f2.aircraft_id = some k := by
            cases hak : f2.aircraft_id with
            | none => rw [hak] at hcond; simp [intTruthy] at hcond
            | some j =>
              rw [hak] at hcond
              have : j = k := by simpa using hcond.2
              rw [this]
          have hf2f : f2 = f :=
            huniq f2 (List.mem_filter.mp hf2).1 hf2k
          rw [hf2f]
          exact hzero
        · rfl
      refine ⟨shapeEntry db (k, v), ?_, rfl,
        by simp [shapeEntry, hvval, hAT, round2_zero]⟩
      simp only [shapeGroup, List.mem_map]
      exact ⟨(k, v), hpairmem, rfl⟩
    · intro m hm hmpos
      have hcm : acc.flight_count = m + 1 := by
        simpa [shapeGroup] using hm
      have havg : (shapeGroup db f.departure_airport acc).average_flight_time =
          round2 (groupTotal db s e f.departure_airport / ((m : ℚ) + 1)) := by
        simp only [shapeGroup]
        rw [if_pos (by omega : acc.flight_count > 0), htot, hcm]
        push_cast
        ring_nf
      rw [havg]
      apply round2_mono
      apply div_le_div_of_nonneg_left (groupTotal_nonneg db s e f.departure_airport)
      · exact_mod_cast hmpos
      · linarith

/-- Store for the C10 witness: one assigned flight ending exactly at the
window's start. -/
def boundaryDB : DB :=
  { aircraft := [{ id := 1, serial_number := "SN01", manufacturer := "Airbus" }],
    flights := [{ id := 1, departure_airport := "ABCD", arrival_airport := "EFGH",
                  departure_time := 0, arrival_time := 600, aircraft_id := some 1 }] }

def boundaryFlight : Flight :=
  { id := 1, departure_airport := "ABCD", arrival_airport := "EFGH",
    departure_time := 0, arrival_time := 600, aircraft_id := some 1 }

/-- The report the handler produces on `boundaryDB` for [600, 1200]. -/
def boundaryReport : StatsReport :=
  { data := reportData boundaryDB 600 1200,
    meta := { start_time := 600, end_time := 1200,
              total_airports := (reportData boundaryDB 600 1200).length,
              total_flights :=
                ((reportData boundaryDB 600 1200).map (fun d => d.flight_count)).sum } }

/-- Witness for C10 at the boundary-touching flight. -/
theorem zero_overlap_entry_not_omitted_witness :
    overlapsWindow 600 1200 boundaryFlight = true ∧
    calculate_inflight_time boundaryFlight 600 1200 = 0 ∧
    ∃ g ∈ boundaryReport.data,
      g.departure_airport = boundaryFlight.departure_airport ∧
      g.flight_count = groupCount boundaryDB 600 1200 boundaryFlight.departure_airport ∧
      (∃ en ∈ g.aircraft_flight_times, en.aircraft_id = 1 ∧
        en.in_flight_minutes =
          round2 (aircraftTotal boundaryDB 600 1200 boundaryFlight.departure_airport 1)) ∧
      ((∀ f2 ∈ boundaryDB.flights, f2.aircraft_id = some 1 → f2 = boundaryFlight) →
        ∃ en ∈ g.aircraft_flight_times, en.aircraft_id = 1 ∧
          en.in_flight_minutes = 0) ∧
      ∀ m : ℕ, g.flight_count = m + 1 → 0 < m →
        g.average_flight_time ≤
          round2 (groupTotal boundaryDB 600 1200
            boundaryFlight.departure_airport / (m : ℚ)) :=
  zero_overlap_entry_not_omitted boundaryDB 600 1200 boundaryFlight 1 boundaryReport
    (by decide) rfl rfl (by decide)
    (flight_statistics_ok boundaryDB 600 1200 (by norm_num))

def noSuchAircraftDB : DB := { aircraft := [], flights := [] }

/-- A create request that passes every validation stage but names an
unknown aircraft. -/
def noSuchAircraftReq : FlightCreate :=
  { departure_airport := some "ABCD", arrival_airport := some "EFGH",
    departure_time := some (.valid 100), arrival_time := some (.valid 200),
    aircraft_id := some 5 }

/-- Counterexample to C8 as stated: the aircraft-resolvability failure is
classified NotFound (HTTP 404), not under the common "validation failed"
classification (HTTP 400) used by every other create-flight failure. -/
theorem create_flight_aircraft_error_not_validation :
    create_flight noSuchAircraftDB noSuchAircraftReq 0 1 =
      (.error (.notFound, .aircraftNotFound 5), noSuchAircraftDB) ∧
    ErrKind.notFound ≠ ErrKind.validation :=
  ⟨rfl, by decide⟩

theorem missing_fields_nil (data : FlightCreate) :
    missing_fields data = [] ↔
      data.departure_airport.isSome = true ∧ data.arrival_airport.isSome = true ∧
      data.departure_time.isSome = true ∧ data.arrival_time.isSome = true := by
  obtain ⟨da, aa, dts, ats, ai⟩ := data
  cases da <;> cases aa <;> cases dts <;> cases ats <;> simp [missing_fields]

theorem not_aircraft_class {kk : ErrKind} {m M : Msg}
    (h : ErrKind.validation = kk ∧ M = m)
    (hM : ∀ i, M ≠ Msg.aircraftNotFound i) :
    ((∃ i, m = .aircraftNotFound i) ∧ kk = .notFound) ∨
    ((∀ i, m ≠ .aircraftNotFound i) ∧ kk = .validation) := by
  obtain ⟨hkk, hm⟩ := h
  subst hm
  exact Or.inr ⟨hM, hkk.symm⟩

/-- C8 (amended): flight-creation validation fails fast on the first
violation, checked in the order required fields → departure ICAO →
arrival ICAO → departure timestamp → arrival timestamp → departure in
the future → arrival after departure → aircraft resolvability, each
stage with its own distinct message; every failure except the
aircraft-resolvability one carries the validation classification, while
an unresolvable aircraft id is classified NotFound. -/
theorem create_flight_validation_order (db : DB) (data : FlightCreate)
    (now : Time) (newId : Nat) :
    (missing_fields data ≠ [] →
      (create_flight db data now newId).1 =
        .error (.validation, .missingRequired (missing_fields data))) ∧
    (∀ da, data.departure_airport = some da →
      missing_fields data = [] →
      validate_icao_code (some da) = false →
      (create_flight db data now newId).1 =
        .error (.validation, .invalidDepIcao da)) ∧
    (∀ aa, data.arrival_airport = some aa →
      missing_fields data = [] →
      validate_icao_code data.departure_airport = true →
      validate_icao_code (some aa) = false →
      (create_flight db data now newId).1 =
        .error (.validation, .invalidArrIcao aa)) ∧
    (missing_fields data = [] →
      validate_icao_code data.departure_airport = true →
      validate_icao_code data.arrival_airport = true →
      parse_datetime data.departure_time = none →
      (create_flight db data now newId).1 =
        .error (.validation, .invalidDepTimeFormat)) ∧
    (missing_fields data = [] →
      validate_icao_code data.departure_airport = true →
      validate_icao_code data.arrival_airport = true →
      (parse_datetime data.departure_time).isSome = true →
      parse_datetime data.arrival_time = none →
      (create_flight db data now newId).1 =
        .error (.validation, .invalidArrTimeFormat)) ∧
    (∀ td, missing_fields data = [] →
      validate_icao_code data.departure_airport = true →
      validate_icao_code data.arrival_airport = true →
      parse_datetime data.departure_time = some td →
      (parse_datetime data.arrival_time).isSome = true →
      td ≤ now →
      (create_flight db data now newId).1 =
        .error (.validation, .depNotFuture)) ∧
    (∀ td ta, missing_fields data = [] →
      validate_icao_code data.departure_airport = true →
      validate_icao_code data.arrival_airport = true →
      parse_datetime data.departure_time = some td →
      parse_datetime data.arrival_time = some ta →
      now < td → ta ≤ td →
      (create_flight db data now newId).1 =
        .error (.validation, .arrNotAfterDep)) ∧
    (∀ td ta k, missing_fields data = [] →
      validate_icao_code data.departure_airport = true →
      validate_icao_code data.arrival_airport = true →
      parse_datetime data.departure_time = some td →
      parse_datetime data.arrival_time = some ta →
      now < td → td < ta →
      data.aircraft_id = some k → k ≠ 0 →
      findAircraft db k = none →
      (create_flight db data now newId).1 =
        .error (.notFound, .aircraftNotFound k)) ∧
    (∀ td ta, missing_fields data = [] →
      validate_icao_code data.departure_airport = true →
      validate_icao_code data.arrival_airport = true →
      parse_datetime data.departure_time = some td →
      parse_datetime data.arrival_time = some ta →
      now < td → td < ta →
      (intTruthy data.aircraft_id = true →
        (findAircraft db (data.aircraft_id.getD 0)).isSome = true) →
      (create_flight db data now newId).1.isOk = true) ∧
    (∀ (ms : List String) (x y : String) (i : Nat),
      ([Msg.missingRequired ms, .invalidDepIcao x, .invalidArrIcao y,
        .invalidDepTimeFormat, .invalidArrTimeFormat, .depNotFuture,
        .arrNotAfterDep, .aircraftNotFound i] : List Msg).Nodup) ∧
    (∀ kk m, (create_flight db data now newId).1 = .error (kk, m) →
      ((∃ i, m = .aircraftNotFound i) ∧ kk = .notFound) ∨
      ((∀ i, m ≠ .aircraftNotFound i) ∧ kk = .validation)) := by
  refine ⟨?_, ?_, ?_, ?_, ?_, ?_, ?_, ?_, ?_, ?_, ?_⟩
  · intro hne
    simp only [create_flight]
    split
    all_goals try rfl
    rename_i depA arrA depS arrS h1 h2 h3 h4
    exact absurd ((missing_fields_nil data).mpr
      ⟨by simp [h1], by simp [h2], by simp [h3], by simp [h4]⟩) hne
  · intro da hda hnil hbad
    rw [missing_fields_nil] at hnil
    obtain ⟨-, haa', hdt', hat'⟩ := hnil
    obtain ⟨aa, haa⟩ := Option.isSome_iff_exists.mp haa'
    obtain ⟨dts, hdt⟩ := Option.isSome_iff_exists.mp hdt'
    obtain ⟨ats, hat⟩ := Option.isSome_iff_exists.mp hat'
    simp [create_flight, hda, haa, hdt, hat, hbad]
  · intro aa haa hnil hic1 hbad
    rw [missing_fields_nil] at hnil
    obtain ⟨hda', -, hdt', hat'⟩ := hnil
    obtain ⟨da, hda⟩ := Option.isSome_iff_exists.mp hda'
    obtain ⟨dts, hdt⟩ := Option.isSome_iff_exists.mp hdt'
    obtain ⟨ats, hat⟩ := Option.isSome_iff_exists.mp hat'
    rw [hda] at hic1
    simp [create_flight, hda, haa, hdt, hat, hic1, hbad]
  · intro hnil hic1 hic2 hpd
    rw [missing_fields_nil] at hnil
    obtain ⟨hda', haa', hdt', hat'⟩ := hnil
    obtain ⟨da, hda⟩ := Option.isSome_iff_exists.mp hda'
    obtain ⟨aa, haa⟩ := Option.isSome_iff_exists.mp haa'
    obtain ⟨dts, hdt⟩ := Option.isSome_iff_exists.mp hdt'
    obtain ⟨ats, hat⟩ := Option.isSome_iff_exists.mp hat'
    rw [hda] at hic1
    rw [haa] at hic2
    rw [hdt] at hpd
    simp [create_flight, hda, haa, hdt, hat, hic1, hic2, hpd]
  · intro hnil hic1 hic2 hpd' hpa
    rw [missing_fields_nil] at hnil
    obtain ⟨hda', haa', hdt', hat'⟩ := hnil
    obtain ⟨da, hda⟩ := Option.isSome_iff_exists.mp hda'
    obtain ⟨aa, haa⟩ := Option.isSome_iff_exists.mp haa'
    obtain ⟨dts, hdt⟩ := Option.isSome_iff_exists.mp hdt'
    obtain ⟨ats, hat⟩ := Option.isSome_iff_exists.mp hat'
    rw [hda] at hic1
    rw [haa] at hic2
    rw [hdt] at hpd'
    rw [hat] at hpa
    obtain ⟨td, hpd⟩ := Option.isSome_iff_exists.mp hpd'
    simp [create_flight, hda, haa, hdt, hat, hic1, hic2, hpd, hpa]
  · intro td hnil hic1 hic2 hpd hpa' hle
    rw [missing_fields_nil] at hnil
    obtain ⟨hda', haa', hdt', hat'⟩ := hnil
    obtain ⟨da, hda⟩ := Option.isSome_iff_exists.mp hda'
    obtain ⟨aa, haa⟩ := Option.isSome_iff_exists.mp haa'
    obtain ⟨dts, hdt⟩ := Option.isSome_iff_exists.mp hdt'
    obtain ⟨ats, hat⟩ := Option.isSome_iff_exists.mp hat'
    rw [hda] at hic1
    rw [haa] at hic2
    rw [hdt] at hpd
    rw [hat] at hpa'
    obtain ⟨ta, hpa⟩ := Option.isSome_iff_exists.mp hpa'
    simp [create_flight, hda, haa, hdt, hat, hic1, hic2, hpd, hpa, hle]
  · intro td ta hnil hic1 hic2 hpd hpa hgt hle
    rw [missing_fields_nil] at hnil
    obtain ⟨hda', haa', hdt', hat'⟩ := hnil
    obtain ⟨da, hda⟩ := Option.isSome_iff_exists.mp hda'
    obtain ⟨aa, haa⟩ := Option.isSome_iff_exists.mp haa'
    obtain ⟨dts, hdt⟩ := Option.isSome_iff_exists.mp hdt'
    obtain ⟨ats, hat⟩ := Option.isSome_iff_exists.mp hat'
    rw [hda] at hic1
    rw [haa] at hic2
    rw [hdt] at hpd
    rw [hat] at hpa
    have hgt' : ¬ td ≤ now := not_le.mpr hgt
    simp [create_flight, hda, haa, hdt, hat, hic1, hic2, hpd, hpa, hgt', hle]
  · intro td ta k hnil hic1 hic2 hpd hpa hgt hlt hai hk0 hfind
    rw [missing_fields_nil] at hnil
    obtain ⟨hda', haa', hdt', hat'⟩ := hnil
    obtain ⟨da, hda⟩ := Option.isSome_iff_exists.mp hda'
    obtain ⟨aa, haa⟩ := Option.isSome_iff_exists.mp haa'
    obtain ⟨dts, hdt⟩ := Option.isSome_iff_exists.mp hdt'
    obtain ⟨ats, hat⟩ := Option.isSome_iff_exists.mp hat'
    rw [hda] at hic1
    rw [haa] at hic2
    rw [hdt] at hpd
    rw [hat] at hpa
    have hgt' : ¬ td ≤ now := not_le.mpr hgt
    have hlt' : ¬ ta ≤ td := not_le.mpr hlt
    have htrk : intTruthy (some k) = true := bne_iff_ne.mpr hk0
    simp [create_flight, hda, haa, hdt, hat, hic1, hic2, hpd, hpa, hgt', hlt',
      htrk, hai, hfind]
  · intro td ta hnil hic1 hic2 hpd hpa hgt hlt hair
    rw [missing_fields_nil] at hnil
    obtain ⟨hda', haa', hdt', hat'⟩ := hnil
    obtain ⟨da, hda⟩ := Option.isSome_iff_exists.mp hda'
    obtain ⟨aa, haa⟩ := Option.isSome_iff_exists.mp haa'
    obtain ⟨dts, hdt⟩ := Option.isSome_iff_exists.mp hdt'
    obtain ⟨ats, hat⟩ := Option.isSome_iff_exists.mp hat'
    rw [hda] at hic1
    rw [haa] at hic2
    rw [hdt] at hpd
    rw [hat] at hpa
    have hgt' : ¬ td ≤ now := not_le.mpr hgt
    have hlt' : ¬ ta ≤ td := not_le.mpr hlt
    cases htr : intTruthy data.aircraft_id with
    | false =>
      simp only [create_flight, hda, haa, hdt, hat, hic1, hic2, hpd, hpa,
        Bool.not_true, if_neg hgt', if_neg hlt', htr, Bool.false_eq_true, if_false]
      rfl
    | true =>
      obtain ⟨ac, hac⟩ := Option.isSome_iff_exists.mp (hair htr)
      simp only [create_flight, hda, haa, hdt, hat, hic1, hic2, hpd, hpa,
        Bool.not_true, if_neg hgt', if_neg hlt', htr, if_true, hac]
      rfl
  · intro ms x y i
    simp
  · intro kk m herr
    simp only [create_flight] at herr
    split at herr
    · split at herr
      · simp only [Prod.fst, Except.error.injEq, Prod.mk.injEq] at herr
        exact not_aircraft_class herr (fun i hi => Msg.noConfusion hi)
      · split at herr
        · simp only [Prod.fst, Except.error.injEq, Prod.mk.injEq] at herr
          exact not_aircraft_class herr (fun i hi => Msg.noConfusion hi)
        · split at herr
          · simp only [Prod.fst, Except.error.injEq, Prod.mk.injEq] at herr
            exact not_aircraft_class herr (fun i hi => Msg.noConfusion hi)
          · split at herr
            · simp only [Prod.fst, Except.error.injEq, Prod.mk.injEq] at herr
              exact not_aircraft_class herr (fun i hi => Msg.noConfusion hi)
            · split at herr
              · simp only [Prod.fst, Except.error.injEq, Prod.mk.injEq] at herr
                exact not_aircraft_class herr (fun i hi => Msg.noConfusion hi)
              · split at herr
                · simp only [Prod.fst, Except.error.injEq, Prod.mk.injEq] at herr
                  exact not_aircraft_class herr (fun i hi => Msg.noConfusion hi)
                · split at herr
                  · rename_i e heq
                    split at heq
                    · split at heq
                      · simp only [Except.error.injEq] at heq
                        subst heq
                        simp only [Prod.fst, Except.error.injEq,
                          Prod.mk.injEq] at herr
                        exact Or.inl ⟨⟨_, herr.2.symm⟩, herr.1.symm⟩
                      · exact Except.noConfusion heq
                    · exact Except.noConfusion heq
                  · simp at herr
    all_goals
      simp only [Prod.fst, Except.error.injEq, Prod.mk.injEq] at herr
      exact not_aircraft_class herr (fun i hi => Msg.noConfusion hi)

/-- A create request failing only the future-departure stage. -/
def staleDepReq : FlightCreate :=
  { departure_airport := some "ABCD", arrival_airport := some "EFGH",
    departure_time := some (.valid 100), arrival_time := some (.valid 200),
    aircraft_id := none }

/-- Witness for C8 on the future-departure stage. -/
theorem create_flight_validation_order_witness :
    (create_flight noSuchAircraftDB staleDepReq 200 1).1 =
      .error (.validation, .depNotFuture) :=
  (create_flight_validation_order noSuchAircraftDB staleDepReq 200 1).2.2.2.2.2.1
    100 rfl (by decide) (by decide) rfl rfl (by norm_num)

theorem findAircraft_id {db : DB} {i : Nat} {a : Aircraft}
    (h : findAircraft db i = some a) : a.id = i := by
  have hp := List.find?_some h
  simpa using hp

theorem findAircraft_mem {db : DB} {i : Nat} {a : Aircraft}
    (h : findAircraft db i = some a) : a ∈ db.aircraft :=
  List.mem_of_find?_eq_some h

theorem firstAircraftBySerial_serial {db : DB} {s : String} {a : Aircraft}
    (h : firstAircraftBySerial db s = some a) : a.serial_number = s := by
  have hp := List.find?_some h
  simpa using hp

theorem firstAircraftBySerial_mem {db : DB} {s : String} {a : Aircraft}
    (h : firstAircraftBySerial db s = some a) : a ∈ db.aircraft :=
  List.mem_of_find?_eq_some h

/-- All stored serial numbers are pairwise distinct (the unique-constraint
invariant of the `aircraft` table). -/
def serialsNodup (db : DB) : Prop :=
  (db.aircraft.map (fun a => a.serial_number)).Nodup

/-- All stored primary keys are pairwise distinct. -/
def idsNodup (db : DB) : Prop :=
  (db.aircraft.map (fun a => a.id)).Nodup

theorem map_replace_of_not_mem {l : List Aircraft} {aid : Nat} {a2 : Aircraft}
    (h : ∀ x ∈ l, x.id ≠ aid) :
    l.map (fun x => if x.id == aid then a2 else x) = l := by
  induction l with
  | nil => rfl
  | cons x l ih =>
    simp only [List.map_cons]
    rw [if_neg (by simp [h x (List.mem_cons_self x l)]),
      ih (fun y hy => h y (List.mem_cons_of_mem x hy))]

theorem nodup_serials_replace (l : List Aircraft) (aid : Nat) (a2 : Aircraft)
    (hid : (l.map (fun a => a.id)).Nodup)
    (hs : (l.map (fun a => a.serial_number)).Nodup)
    (hfree : ∀ b ∈ l, b.serial_number = a2.serial_number → b.id = aid) :
    ((l.map (fun x => if x.id == aid then a2 else x)).map
      (fun a => a.serial_number)).Nodup := by
  induction l with
  | nil => simp
  | cons x l ih =>
    simp only [List.map_cons, List.nodup_cons] at hid hs
    by_cases hx : x.id = aid
    · have htail : ∀ y ∈ l, y.id ≠ aid := by
        intro y hy hyid
        exact hid.1 (List.mem_map.mpr ⟨y, hy, by rw [hyid, hx]⟩)
      rw [List.map_cons, if_pos (by simp [hx]), map_replace_of_not_mem htail]
      simp only [List.map_cons, List.nodup_cons]
      refine ⟨?_, hs.2⟩
      intro hmem
      rcases List.mem_map.mp hmem with ⟨y, hy, hys⟩
      have hyid := hfree y (List.mem_cons_of_mem x hy) hys
      exact htail y hy hyid
    · rw [List.map_cons, if_neg (by simp [hx])]
      simp only [List.map_cons, List.nodup_cons]
      constructor
      · intro hmem
        rcases List.mem_map.mp hmem with ⟨z, hz, hzs⟩
        rcases List.mem_map.mp hz with ⟨y, hy, hyz⟩
        by_cases hyid : y.id = aid
        · rw [if_pos (by simp [hyid])] at hyz
          have hxs : x.serial_number = a2.serial_number := by
            rw [← hzs, ← hyz]
          exact hx (hfree x (List.mem_cons_self x l) hxs)
        · rw [if_neg (by simp [hyid])] at hyz
          apply hs.1
          refine List.mem_map.mpr ⟨y, hy, ?_⟩
          rw [hyz]
          exact hzs
      · exact ih hid.2 hs.2 (fun b hb hbs => hfree b (List.mem_cons_of_mem x hb) hbs)

theorem nodup_serials_append (l : List Aircraft) (a : Aircraft)
    (hs : (l.map (fun x => x.serial_number)).Nodup)
    (hfree : ∀ b ∈ l, b.serial_number ≠ a.serial_number) :
    ((l ++ [a]).map (fun x => x.serial_number)).Nodup := by
  rw [List.map_append, List.nodup_append]
  refine ⟨hs, by simp, ?_⟩
  intro x hx hx2
  simp only [List.map_cons, List.map_nil, List.mem_singleton] at hx2
  subst hx2
  rcases List.mem_map.mp hx with ⟨b, hb, hbs⟩
  exact hfree b hb hbs

/-- C9: updating an aircraft with its own current serial number (or any
unused one) succeeds; the Conflict error is returned exactly when the
serial number belongs to a different existing aircraft; and both create
and update preserve the pairwise distinctness of serial numbers. -/
theorem serial_uniqueness (db : DB) (aid : Nat) (data : AircraftUpdate) :
    (∀ a0, findAircraft db aid = some a0 → serialsNodup db →
      data.serial_number = some a0.serial_number →
      (update_aircraft db aid data).1.isOk = true) ∧
    (∀ s, data.serial_number = some s →
      firstAircraftBySerial db s = none →
      (findAircraft db aid).isSome = true →
      (update_aircraft db aid data).1.isOk = true) ∧
    (∀ s b, data.serial_number = some s →
      firstAircraftBySerial db s = some b → b.id ≠ aid →
      (findAircraft db aid).isSome = true →
      (update_aircraft db aid data).1 = .error (.conflict, .serialExists s)) ∧
    (serialsNodup db → idsNodup db →
      serialsNodup (update_aircraft db aid data).2) ∧
    (∀ (cdata : AircraftCreate) (newId : Nat), serialsNodup db →
      serialsNodup (create_aircraft db cdata newId).2) := by
  refine ⟨?_, ?_, ?_, ?_, ?_⟩
  · intro a0 hfind hnd hser
    have ha0mem := findAircraft_mem hfind
    have ha0id := findAircraft_id hfind
    have hsome : (db.aircraft.find?
        (fun a => a.serial_number == a0.serial_number)).isSome = true := by
      rw [List.find?_isSome]
      exact ⟨a0, ha0mem, by simp⟩
    obtain ⟨b, hb⟩ := Option.isSome_iff_exists.mp hsome
    have hbmem : b ∈ db.aircraft := List.mem_of_find?_eq_some hb
    have hbs : b.serial_number = a0.serial_number := by
      have hp := List.find?_some hb
      simpa using hp
    have hba : b = a0 := List.inj_on_of_nodup_map hnd hbmem ha0mem hbs
    have hfb : firstAircraftBySerial db a0.serial_number = some b := hb
    simp only [update_aircraft, hfind, update_aircraft_stage, hser, hfb, hba,
      ha0id, bne_self_eq_false, Bool.false_eq_true, if_false]
    cases hm : data.manufacturer <;> simp [hm] <;> rfl
  · intro s hser hnone hfind'
    obtain ⟨a0, hfind⟩ := Option.isSome_iff_exists.mp hfind'
    simp only [update_aircraft, hfind, update_aircraft_stage, hser, hnone]
    cases hm : data.manufacturer <;> simp [hm] <;> rfl
  · intro s b hser hb hbne hfind'
    obtain ⟨a0, hfind⟩ := Option.isSome_iff_exists.mp hfind'
    have hbb : (b.id != aid) = true := bne_iff_ne.mpr hbne
    simp only [update_aircraft, hfind, update_aircraft_stage, hser, hb, hbb,
      if_true]
  · intro hs hid
    simp only [update_aircraft]
    cases hfind : findAircraft db aid with
    | none => exact hs
    | some a0 =>
      have ha0id := findAircraft_id hfind
      have ha0mem := findAircraft_mem hfind
      cases hds : data.serial_number with
      | none =>
        cases hm : data.manufacturer with
        | none =>
          simp only [update_aircraft_stage, hds, hm]
          simp only [commitAircraft, serialsNodup]
          apply nodup_serials_replace _ _ _ hid hs
          intro b hb hbs
          have hba : b = a0 := List.inj_on_of_nodup_map hs hb ha0mem hbs
          rw [hba]
        | some m =>
          simp only [update_aircraft_stage, hds, hm]
          simp only [commitAircraft, serialsNodup]
          apply nodup_serials_replace _ _ _ hid hs
          intro b hb hbs
          have hba : b = a0 := List.inj_on_of_nodup_map hs hb ha0mem hbs
          rw [hba]
      | some s =>
        cases hf : firstAircraftBySerial db s with
        | none =>
          have hnos : ∀ b ∈ db.aircraft, b.serial_number ≠ s := by
            intro b hb hbs
            have hfe := List.find?_eq_none.mp hf b hb
            simp [hbs] at hfe
          cases hm : data.manufacturer with
          | none =>
            simp only [update_aircraft_stage, hds, hf, hm]
            simp only [commitAircraft, serialsNodup]
            apply nodup_serials_replace _ _ _ hid hs
            intro b hb hbs
            exact absurd hbs (hnos b hb)
          | some m =>
            simp only [update_aircraft_stage, hds, hf, hm]
            simp only [commitAircraft, serialsNodup]
            apply nodup_serials_replace _ _ _ hid hs
            intro b hb hbs
            exact absurd hbs (hnos b hb)
        | some ex =>
          have hexs := firstAircraftBySerial_serial hf
          have hexmem := firstAircraftBySerial_mem hf
          cases hbne : (ex.id != aid) with
          | true =>
            simp only [update_aircraft_stage, hds, hf, hbne, if_true]
            exact hs
          | false =>
            have hexid : ex.id = aid := by simpa using hbne
            cases hm : data.manufacturer with
            | none =>
              simp only [update_aircraft_stage, hds, hf, hbne,
                Bool.false_eq_true, if_false, hm]
              simp only [commitAircraft, serialsNodup]
              apply nodup_serials_replace _ _ _ hid hs
              intro b hb hbs
              have hbex : b = ex :=
                List.inj_on_of_nodup_map hs hb hexmem (by rw [hbs, hexs])
              rw [hbex, hexid, ← ha0id]
            | some m =>
              simp only [update_aircraft_stage, hds, hf, hbne,
                Bool.false_eq_true, if_false, hm]
              simp only [commitAircraft, serialsNodup]
              apply nodup_serials_replace _ _ _ hid hs
              intro b hb hbs
              have hbex : b = ex :=
                List.inj_on_of_nodup_map hs hb hexmem (by rw [hbs, hexs])
              rw [hbex, hexid, ← ha0id]
  · intro cdata newId hs
    simp only [create_aircraft]
    cases hcs : cdata.serial_number with
    | none => exact hs
    | some s =>
      cases hcm : cdata.manufacturer with
      | none => exact hs
      | some m =>
        dsimp only
        cases hf : firstAircraftBySerial db s with
        | some b => exact hs
        | none =>
          simp only [serialsNodup]
          apply nodup_serials_append _ _ hs
          intro b hb hbs
          have hfe := List.find?_eq_none.mp hf b hb
          simp [hbs] at hfe

def ownSerialDB : DB :=
  { aircraft := [{ id := 1, serial_number := "SN01", manufacturer := "Airbus" }],
    flights := [] }

/-- Update resending the aircraft's own serial number. -/
def ownSerialReq : AircraftUpdate :=
  { serial_number := some "SN01", manufacturer := some "Boeing" }

/-- Witness for C9: resending the own serial number succeeds. -/
theorem serial_uniqueness_witness :
    (update_aircraft ownSerialDB 1 ownSerialReq).1.isOk = true :=
  (serial_uniqueness ownSerialDB 1 ownSerialReq).1
    { id := 1, serial_number := "SN01", manufacturer := "Airbus" }
    rfl (by simp [serialsNodup, ownSerialDB]) rfl
